import Mathlib

/-
Verification of the nailgun network allocation/validation engine:
a shallow embedding of the validators in
nailgun/api/v1/validators/network.py, nailgun/api/v1/validators/ip_addr.py
and of the default network assignment in nailgun/objects/node.py,
together with theorems about the properties claimed for them.

Python dict payloads are embedded as structures whose fields are `Option`
(`none` = the key is absent); IPv4 addresses are their 32-bit integer
values, embedded as `Nat`; exceptions are an explicit error type carried
in `Except`.  External collaborators (the ORM queries, the network
manager, consts) are embedded as explicit environment records, with the
few functions whose bodies are not part of the validator sources
modelled from the specification and marked as such.
-/

/-- An IPv4 address by its 32-bit integer value. -/
abbrev Addr := Nat

/-- An inclusive IP range (model of IPAddrRange rows and of (first, last) pairs). -/
structure IpRange where
  first : Addr
  last : Addr
deriving DecidableEq, Repr

/-- Modelled from the spec: `RangeSet.covers_all` / the network manager's
`check_ips_belong_to_ranges` (its body is not under src/): true iff every
address falls inside at least one range, ranges inclusive on both ends,
addresses ordered by their 32-bit integer value. -/
def check_ips_belong_to_ranges (ips : List Addr) (ranges : List IpRange) : Bool :=
  ips.all fun ip => ranges.any fun r => decide (r.first ≤ ip) && decide (ip ≤ r.last)

/-- The exceptions the validators raise: errors.InvalidData,
errors.AlreadyExists, and a marker for places where the Python source
would raise a plain runtime error (KeyError/AttributeError) instead of a
validation error. -/
inductive VErr where
  | invalidData (msg : String)
  | alreadyExists (msg : String)
  | pyError (msg : String)
deriving DecidableEq, Repr

/-- Whether an `Except` result is an AlreadyExists failure. -/
def isAlreadyExistsErr {α : Type} : Except VErr α → Bool
  | .error (.alreadyExists _) => true
  | _ => false

/-- Whether an `Except` result is a success. -/
def isOkE {α : Type} : Except VErr α → Bool
  | .ok _ => true
  | _ => false

/-- Decidable equality of Except results, for concrete evaluation. -/
instance instDecEqExceptV {e a : Type} [DecidableEq e] [DecidableEq a] :
    DecidableEq (Except e a) := fun x y =>
  match x, y with
  | .ok v, .ok w =>
      if h : v = w then isTrue (by rw [h]) else isFalse (fun hh => h (Except.ok.inj hh))
  | .error v, .error w =>
      if h : v = w then isTrue (by rw [h]) else isFalse (fun hh => h (Except.error.inj hh))
  | .ok _, .error _ => isFalse (fun hh => Except.noConfusion hh)
  | .error _, .ok _ => isFalse (fun hh => Except.noConfusion hh)

/-- A CIDR, kept as its base address and prefix length (netaddr.IPNetwork). -/
structure Cidr where
  base : Addr
  pfx : Nat
deriving DecidableEq, Repr

/-- Number of addresses in the CIDR: 2^(32 - prefix length). -/
def Cidr.size (c : Cidr) : Nat := 2 ^ (32 - c.pfx)

/-- The network address of the CIDR (IPNetwork indexes from here). -/
def Cidr.netAddr (c : Cidr) : Addr := c.base - c.base % c.size

/-- `IPNetwork(cidr)[i]` for a non-negative index. -/
def Cidr.index (c : Cidr) (i : Nat) : Addr := c.netAddr + i

/-- `IPNetwork(cidr)[-2]`: the address just below the broadcast address. -/
def Cidr.penultimate (c : Cidr) : Addr := c.netAddr + (c.size - 2)

/-- consts.NETWORKS.fuelweb_admin. -/
def NETWORKS_fuelweb_admin : String := "fuelweb_admin"

/-- The `meta` sub-dict of a network-group edit payload. -/
structure NgMeta where
  nota : Option String
  use_gateway : Option Bool
deriving DecidableEq, Repr

/-- A network-group edit payload (`ng_data`): every field `none` when the
key is absent from the request. `nota` embeds the `notation` key. -/
structure NgData where
  id : Option Nat
  name : Option String
  cidr : Option Cidr
  ip_ranges : Option (List IpRange)
  release : Option Nat
  gateway : Option Addr
  meta : Option NgMeta
  group_id : Option Nat
deriving DecidableEq, Repr

/-- A NetworkGroup DB row (`ng_db`), with its meta dict flattened:
`meta_nota` embeds `meta['notation']`. -/
structure NgDb where
  id : Nat
  name : String
  cidr : Option Cidr
  ip_ranges : List IpRange
  release : Option Nat
  gateway : Option Addr
  meta_nota : Option String
  meta_use_gateway : Option Bool
  group_id : Option Nat
deriving DecidableEq, Repr

/-- The DB/network-manager state validate_network_group consults:
the group's allocated IPs (nm.get_assigned_ips_by_network_id), the two
bootstrap-node IP queries of _check_ips_out_of_ip_ranges, and the
cluster's status. -/
structure NetEnv where
  assigned_ips : List Addr
  default_group_node_ips : List Addr
  own_group_node_ips : List Addr
  cluster_status : String
deriving Repr

/-- `ng_data.get('meta', \x7b\x7d)`. -/
def NgData.metaD (d : NgData) : NgMeta := d.meta.getD ⟨none, none⟩

/-- `meta.get('notation', ng_db.meta.get('notation'))`. -/
def resolved_nota (d : NgData) (g : NgDb) : Option String := d.metaD.nota <|> g.meta_nota

/-- `meta.get('use_gateway', ng_db.meta.get('use_gateway', False))`. -/
def resolved_use_gateway (d : NgData) (g : NgDb) : Bool :=
  (d.metaD.use_gateway <|> g.meta_use_gateway).getD false

/-- `ng_data.get('gateway', ng_db.get('gateway'))`. -/
def resolved_gateway (d : NgData) (g : NgDb) : Option Addr := d.gateway <|> g.gateway

/-- `ng_data.get('cidr', ng_db.cidr)`. -/
def resolved_cidr (d : NgData) (g : NgDb) : Option Cidr := d.cidr <|> g.cidr

/-- `ng_data.get('ip_ranges', [(r.first, r.last) for r in ng_db.ip_ranges])`. -/
def resolved_ip_ranges (d : NgData) (g : NgDb) : List IpRange := d.ip_ranges.getD g.ip_ranges

/-- `ng_data.get('release', ng_db.get('release'))`. -/
def resolved_release (d : NgData) (g : NgDb) : Option Nat := d.release <|> g.release

/-- NetworkConfigurationValidator._get_network_ip_ranges. -/
def _get_network_ip_ranges (network : NgData) (ng_db : NgDb) (nota : Option String)
    (use_gateway : Bool) : List IpRange :=
  if nota = some "ip_ranges" then
    network.ip_ranges.getD ng_db.ip_ranges
  else if nota = some "cidr" then
    match network.cidr <|> ng_db.cidr with
    | some c =>
        let first_index := if use_gateway then 2 else 1
        [⟨c.index first_index, c.penultimate⟩]
    -- IPNetwork(None) would fail; validate_network_group only reaches this
    -- call with a resolvable CIDR when the notation is 'cidr'.
    | none => []
  else []

/-- The IPs _check_ips_out_of_ip_ranges collects: the group's assigned IPs,
extended with bootstrap node IPs when the group is the admin network
(all default-group nodes for the shared admin network, else the group's
clustered nodes). -/
def allocated_ips (g : NgDb) (env : NetEnv) : List Addr :=
  env.assigned_ips ++
    (if g.name = NETWORKS_fuelweb_admin then
      (if g.group_id = none then env.default_group_node_ips else env.own_group_node_ips)
    else [])

/-- NetworkConfigurationValidator._check_ips_out_of_ip_ranges: true iff some
already-allocated IP of the group falls outside all provided ranges. -/
def _check_ips_out_of_ip_ranges (ng_db : NgDb) (env : NetEnv) (ranges : List IpRange) : Bool :=
  ! check_ips_belong_to_ranges (allocated_ips ng_db env) ranges

/-- NetworkConfigurationValidator.validate_network_group (the admin_ranges
out-parameter, used only by the batch path, is not modelled). -/
def validate_network_group (ng_data : NgData) (ng_db : NgDb) (env : NetEnv) :
    Except VErr NgData :=
  let cidr := resolved_cidr ng_data ng_db
  let ip_ranges := resolved_ip_ranges ng_data ng_db
  if resolved_release ng_data ng_db ≠ ng_db.release then
    .error (.invalidData "Network release could not be changed.")
  else
    let nota := resolved_nota ng_data ng_db
    let use_gateway := resolved_use_gateway ng_data ng_db
    let gateway := resolved_gateway ng_data ng_db
    if use_gateway = true ∧ gateway = none then
      .error (.invalidData "Flag 'use_gateway' cannot be provided without gateway")
    else if ip_ranges = [] ∧ nota = some "ip_ranges" then
      .error (.invalidData ("No IP ranges were specified for network " ++ toString ng_db.id))
    else if (nota = some "cidr" ∨ nota = some "ip_ranges") ∧ cidr = none ∧ ng_db.cidr = none then
      .error (.invalidData ("No CIDR was specified for network " ++ toString ng_db.id))
    else
      let ranges := _get_network_ip_ranges ng_data ng_db nota (gateway ≠ none)
      if (ng_db.name = NETWORKS_fuelweb_admin ∨ env.cluster_status ≠ "new") ∧
          _check_ips_out_of_ip_ranges ng_db env ranges = true then
        -- the message formats ng_data['name'] and ng_data['id']: a KeyError,
        -- not InvalidData, when the request lacks either key
        match ng_data.name, ng_data.id with
        | some nm, some i =>
            .error (.invalidData ("New IP ranges for network '" ++ nm ++ "'(" ++ toString i ++
              ") do not cover already allocated IPs."))
        | _, _ => .error (.pyError "KeyError")
      else .ok ng_data

/-- The ranges validate_network_group actually validates against: the result
of its `_get_network_ip_ranges(ng_data, ng_db, notation, gateway is not None)`
call. -/
def effective_ranges (d : NgData) (g : NgDb) : List IpRange :=
  _get_network_ip_ranges d g (resolved_nota d g) (resolved_gateway d g ≠ none)

/-- The effective ranges as the spec's sentence words them, for a refinement
comparison with `effective_ranges`: for 'cidr' notation the CIDR minus
network/broadcast addresses, with the first usable address additionally
skipped iff the resolved `use_gateway` flag is set; for 'ip_ranges' the
resolved ranges themselves. -/
def spec_effective_ranges (d : NgData) (g : NgDb) : List IpRange :=
  if resolved_nota d g = some "ip_ranges" then
    resolved_ip_ranges d g
  else if resolved_nota d g = some "cidr" then
    match resolved_cidr d g with
    | some c => [⟨c.index (if resolved_use_gateway d g then 2 else 1), c.penultimate⟩]
    | none => []
  else []

/-- An IPAddr DB row together with the network it belongs to
(`network_data.name` / `network_data.cidr` are carried inline for the
AlreadyExists message).  `rid` is the row's primary key and stands for
Python object identity: one ORM session maps one row to one object. -/
structure IpRow where
  rid : Nat
  network : Nat
  node : Option Nat
  ip_addr : Addr
  is_user_defined : Bool
  vip_name : Option String
  vip_namespace : Option String
  network_name : String
  network_cidr : String
deriving DecidableEq, Repr

/-- Modelled from the spec: objects.IPAddrCollection.get_all_by_addr (its
body is not under src/): all non-deleted IPAddr rows carrying the given
address, anywhere; `.first()` of the query is the head of this list. -/
def get_all_by_addr (db : List IpRow) (addr : Addr) : List IpRow :=
  db.filter fun r => r.ip_addr = addr

/-- A VIP creation payload (ip_addr.VIP_CREATE_SCHEMA requires ip_addr,
network and vip_name, so those are plain fields). -/
structure VipCreateData where
  ip_addr : Addr
  network : Nat
  vip_name : String
  is_user_defined : Option Bool
  vip_namespace : Option String
deriving DecidableEq, Repr

/-- A NetworkGroup row as validate_create consults it: its id and, when it
is assigned to a nodegroup, that nodegroup's cluster id. -/
structure VipNetRow where
  nid : Nat
  nodegroup_cluster_id : Option Nat
deriving DecidableEq, Repr

/-- The state IPAddrValidator.validate_create consults: the VIP names
declared by the cluster's network-role metadata (the union computed by
_check_vip_name), the network groups, the cluster id and the IPAddr
table. -/
structure VipEnv where
  allowed_vip_names : List String
  networks : List VipNetRow
  cluster_id : Nat
  ip_db : List IpRow
deriving Repr

/-- IPAddrValidator.validate_create (schema validation is enforced by the
payload type). -/
def IPAddrValidator.validate_create (data : VipCreateData) (env : VipEnv) :
    Except VErr VipCreateData :=
  if data.is_user_defined = some false then
    .error (.invalidData
      "'is_user_defined' flag must be set to true for manually created VIPs")
  else if data.vip_name ∉ env.allowed_vip_names then
    .error (.invalidData ("Name " ++ data.vip_name ++
      " is not found in VIP metadata for network roles of cluster with id " ++
      toString env.cluster_id))
  else
    match env.networks.find? fun n => n.nid = data.network with
    | none => .error (.invalidData ("Network group with id " ++ toString data.network ++
        " is not found"))
    | some network_db =>
      match network_db.nodegroup_cluster_id with
      | none => .error (.invalidData ("Network group with id " ++ toString network_db.nid ++
          " is not currently assigned to any nodegroup"))
      | some cid =>
        if cid ≠ env.cluster_id then
          .error (.invalidData ("VIP cannot be created as there is no network with id " ++
            toString data.network ++ " assigned to any of nodegroups of cluster with id " ++
            toString env.cluster_id))
        else
          match (get_all_by_addr env.ip_db data.ip_addr).head? with
          | some _ => .error (.invalidData ("VIP cannot be created as ip address " ++
              toString data.ip_addr ++ " is already in use"))
          | none => .ok data

/-- A single IPAddr update payload: every field `none` when the key is
absent (`node` and `vip_namespace` values may themselves be null). -/
structure IpUpdateData where
  rid : Option Nat
  network : Option Nat
  node : Option (Option Nat)
  ip_addr : Option Addr
  is_user_defined : Option Bool
  vip_name : Option (Option String)
  vip_namespace : Option (Option String)
deriving DecidableEq, Repr

/-- The `bad_fields` loop of IPAddrValidator.validate_update: the payload's
present keys whose value differs from the existing record and that are not
among `updatable_fields` (ip_addr, is_user_defined, vip_namespace). -/
def bad_fields (data : IpUpdateData) (ex : IpRow) : List String :=
  (if data.rid.any fun v => v ≠ ex.rid then ["id"] else []) ++
  (if data.network.any fun v => v ≠ ex.network then ["network"] else []) ++
  (if data.node.any fun v => v ≠ ex.node then ["node"] else []) ++
  (if data.vip_name.any fun v => v ≠ ex.vip_name then ["vip_name"] else [])

/-- IPAddrValidator._check_vip_addr_intersection: AlreadyExists when the
first row holding the address is a different record than the one being
updated (`is not` compares object identity, i.e. the row). -/
def _check_vip_addr_intersection (db : List IpRow) (ip_instance : IpRow) (addr : Addr) :
    Except VErr Unit :=
  match (get_all_by_addr db addr).head? with
  | some intersecting_ip =>
    if intersecting_ip.rid = ip_instance.rid then .ok ()
    else .error (.alreadyExists ("IP address " ++ toString addr ++
      " is already allocated within " ++ intersecting_ip.network_name ++
      " network with CIDR " ++ intersecting_ip.network_cidr))
  | none => .ok ()

/-- IPAddrValidator.validate_update.  The source's bad-fields message also
appends a JSON dump of the payload; the dump is not reproduced here. -/
def IPAddrValidator.validate_update (data : IpUpdateData) (ex : IpRow) (db : List IpRow) :
    Except VErr IpUpdateData :=
  let bf := bad_fields data ex
  if bf ≠ [] then
    .error (.invalidData ("The following fields: " ++
      String.intercalate ", " bf ++ " are not allowed to be updated for record"))
  else
    match data.is_user_defined, data.ip_addr with
    | some true, some a =>
      match _check_vip_addr_intersection db ex a with
      | .ok _ => .ok data
      | .error e => .error e
    | _, _ => .ok data

/-- The not-found message of validate_collection_update. -/
def vipNotFoundMsg (rid : Option Nat) (cluster_id : Nat) : String :=
  "IPAddr with (ID=" ++ (match rid with | some i => toString i | none => "None") ++
    ") does not exist or does not belong to cluster (ID=" ++ toString cluster_id ++ ")"

/-- The per-record loop of IPAddrValidator.validate_collection_update:
`vips` embeds objects.IPAddrCollection.get_vips_by_cluster_id(cluster_id)
(modelled from the spec, its body is not under src/); InvalidData from
validate_update is caught and its message accumulated, every other
exception (AlreadyExists) propagates at once. -/
def collectVipErrors (vips db : List IpRow) (cluster_id : Nat) :
    List IpUpdateData → List String → Except VErr (List String)
  | [], msgs => .ok msgs
  | record :: rest, msgs =>
    match vips.find? fun v => record.rid = some v.rid with
    | some instanceRow =>
      match IPAddrValidator.validate_update record instanceRow db with
      | .ok _ => collectVipErrors vips db cluster_id rest msgs
      | .error (.invalidData m) => collectVipErrors vips db cluster_id rest (msgs ++ [m])
      | .error e => .error e
    | none => collectVipErrors vips db cluster_id rest (msgs ++ [vipNotFoundMsg record.rid cluster_id])

/-- IPAddrValidator.validate_collection_update. -/
def IPAddrValidator.validate_collection_update (records : List IpUpdateData)
    (vips db : List IpRow) (cluster_id : Nat) : Except VErr (List IpUpdateData) :=
  match collectVipErrors vips db cluster_id records [] with
  | .error e => .error e
  | .ok msgs =>
    if msgs.isEmpty then .ok records
    else .error (.invalidData (String.intercalate "\n" msgs))

/-- A network group as Node.assign_network_to_interface inspects it:
`untagged` embeds NetworkGroup.is_untagged (modelled from the spec: the
vlan-tagging flag; its body is not under src/), `dedicated` embeds
`network.meta.get('dedicated_nic')`. -/
structure NetG where
  ngid : Nat
  untagged : Bool
  dedicated : Bool
deriving DecidableEq, Repr

/-- Outcome of the inner `for net in iface.assigned_networks_list` loop of
assign_network_to_interface: `skip` = a break fired (reject this
interface), `found` = `net == network` returned from the whole function,
`accept` = the loop's else clause fired (assign here). -/
inductive ScanOut where
  | skip
  | found
  | accept
deriving DecidableEq, Repr

/-- The inner loop of Node.assign_network_to_interface over one interface's
already assigned networks. -/
def scanAssignedNets (network : NetG) (untagged : Bool) : List NetG → ScanOut
  | [] => .accept
  | net :: rest =>
    if net.dedicated then .skip
    else if net = network then .found
    else if untagged && net.untagged then .skip
    else scanAssignedNets network untagged rest

/-- The outer `for iface in ifaces` loop of Node.assign_network_to_interface:
`none` when no interface accepted the network (the loop's else clause, the
fallback, is then taken), otherwise the updated interface states (identical
to the input when the network was already assigned). -/
def assignScan (network : NetG) (untagged dedicated : Bool) :
    List (List NetG) → Option (List (List NetG))
  | [] => none
  | nets :: rest =>
    if dedicated && !nets.isEmpty then
      (assignScan network untagged dedicated rest).map (nets :: ·)
    else
      match scanAssignedNets network untagged nets with
      | .skip => (assignScan network untagged dedicated rest).map (nets :: ·)
      | .found => some (nets :: rest)
      | .accept => some ((nets ++ [network]) :: rest)

/-- Node.assign_network_to_interface for a non-None network, over the node's
non-bond-slave interfaces in their sorted order, each represented by its
assigned-networks list.  When no interface accepts, the network is appended
to the first interface (the logged fallback). -/
def assign_network_to_interface (network : NetG) (ifaces : List (List NetG)) :
    List (List NetG) :=
  match assignScan network network.untagged network.dedicated ifaces with
  | some s => s
  | none =>
    match ifaces with
    -- `ifaces[0]` would fail on a node without interfaces; unreachable for real nodes
    | [] => []
    | nets0 :: rest => (nets0 ++ [network]) :: rest

/-- An `assigned_networks` entry of an interface payload. -/
structure AssignedNetRef where
  anid : Option Nat
  aname : Option String
deriving DecidableEq, Repr

/-- A bond `slaves` entry. -/
structure SlaveRef where
  sname : Option String
deriving DecidableEq, Repr

/-- The `sriov` sub-dict of interface_properties, used both for DB rows and
for request payloads (`none` = key absent). -/
structure SriovP where
  enabled : Option Bool
  available : Option Bool
  sriov_numvfs : Option Nat
  sriov_totalvfs : Option Nat
  pci_id : Option String
deriving DecidableEq, Repr

/-- An empty sriov dict (every key absent). -/
def SriovP.emptyDict : SriovP := ⟨none, none, none, none, none⟩

/-- Whether the sriov dict is empty, i.e. falsy in Python. -/
def SriovP.isEmptyDict (s : SriovP) : Bool :=
  s.enabled.isNone && s.available.isNone && s.sriov_numvfs.isNone &&
    s.sriov_totalvfs.isNone && s.pci_id.isNone

/-- Flat dict update / recursive merge of two sriov dicts (right wins). -/
def SriovP.merge (a b : SriovP) : SriovP :=
  ⟨b.enabled <|> a.enabled, b.available <|> a.available,
   b.sriov_numvfs <|> a.sriov_numvfs, b.sriov_totalvfs <|> a.sriov_totalvfs,
   b.pci_id <|> a.pci_id⟩

/-- The `dpdk` sub-dict of interface_properties. -/
structure DpdkP where
  enabled : Option Bool
deriving DecidableEq, Repr

/-- Recursive merge of two dpdk dicts (right wins). -/
def DpdkP.merge (a b : DpdkP) : DpdkP := ⟨b.enabled <|> a.enabled⟩

/-- An interface_properties dict (DB or request), restricted to the keys the
validators read. -/
structure IfaceProps where
  sriov : Option SriovP
  dpdk : Option DpdkP
  pci_id : Option String
  mtu : Option Nat
deriving DecidableEq, Repr

/-- An empty interface_properties dict. -/
def IfaceProps.emptyDict : IfaceProps := ⟨none, none, none, none⟩

/-- utils.dict_merge of two interface_properties dicts (its body is not
under src/; modelled from its use: the right side wins, values that are
themselves dicts are merged recursively). -/
def IfaceProps.merge (a b : IfaceProps) : IfaceProps where
  sriov := match a.sriov, b.sriov with
    | some x, some y => some (x.merge y)
    | none, y => y
    | x, none => x
  dpdk := match a.dpdk, b.dpdk with
    | some x, some y => some (x.merge y)
    | none, y => y
    | x, none => x
  pci_id := b.pci_id <|> a.pci_id
  mtu := b.mtu <|> a.mtu

/-- An interface payload of a node's interface-assignment request. -/
structure IfacePayload where
  itype : Option String
  iid : Option Nat
  name : Option String
  slaves : Option (List SlaveRef)
  mode : Option String
  bond_properties : Option (List (String × String))
  assigned_networks : Option (List AssignedNetRef)
  interface_properties : Option IfaceProps
deriving DecidableEq, Repr

/-- A node payload of an interface-assignment request. -/
structure NodePayload where
  nid : Option Nat
  interfaces : Option (List IfacePayload)
deriving DecidableEq, Repr

/-- Modelled from consts (nailgun/consts.py is not under src/): the
recognized bond modes and bond property keys, abstract finite sets. -/
structure NetConsts where
  bond_modes : List String
  bond_properties : List String
deriving DecidableEq, Repr

/-- Lookup of a string key in a string-valued dict. -/
def lookupStr (l : List (String × String)) (k : String) : Option String :=
  (l.find? fun p => p.1 = k).map (·.2)

/-- NetAssignmentValidator.get_bond_mode: `bond_properties['mode']` wins
over the interface's `mode` key. -/
def get_bond_mode (iface : IfacePayload) : Option String :=
  match lookupStr (iface.bond_properties.getD []) "mode" with
  | some m => some m
  | none => iface.mode

/-- `iface.get('id') or iface.get('name')` as the error messages format it. -/
def ifaceLabel (iface : IfacePayload) : String :=
  match iface.iid with
  | some i => if i = 0 then iface.name.getD "None" else toString i
  | none => iface.name.getD "None"

/-- The per-assigned-network loop of NetAssignmentValidator.validate,
threading the cross-interface `net_ids` set. -/
def checkAssignedNets (nodeId : String) (label : String) :
    List AssignedNetRef → List Nat → Except VErr (List Nat)
  | [], net_ids => .ok net_ids
  | net :: rest, net_ids =>
    match net.anid with
    | none => .error (.invalidData ("Node '" ++ nodeId ++ "', interface '" ++ label ++
        "': each assigned network should have ID"))
    | some nid =>
      if nid ∈ net_ids then
        .error (.invalidData ("Node '" ++ nodeId ++ "': there is a duplicated network '" ++
          toString nid ++ "' in assigned networks (second occurrence is in interface '" ++
          label ++ "')"))
      else checkAssignedNets nodeId label rest (net_ids ++ [nid])

/-- The bond-specific structural checks of NetAssignmentValidator.validate. -/
def validateBondPart (consts : NetConsts) (nodeId : String) (iface : IfacePayload) :
    Except VErr Unit :=
  match iface.name with
  | none => .error (.invalidData ("Node '" ++ nodeId ++
      "': each bond interface must have name"))
  | some bname =>
    match iface.slaves with
    | none => .error (.invalidData ("Node '" ++ nodeId ++
        "': each bond interface must have two or more slaves"))
    | some slaves =>
      if slaves.length < 2 then
        .error (.invalidData ("Node '" ++ nodeId ++
          "': each bond interface must have two or more slaves"))
      else if ¬ slaves.all fun s => s.sname.isSome then
        .error (.invalidData ("Node '" ++ nodeId ++ "', interface '" ++ bname ++
          "': each bond slave must have name"))
      else
        match (iface.bond_properties.getD []).find? fun p => p.1 ∉ consts.bond_properties with
        | some p => .error (.invalidData ("Node '" ++ nodeId ++ "', interface '" ++ bname ++
            "': unknown bond property '" ++ p.1 ++ "'"))
        | none =>
          match get_bond_mode iface with
          | none => .error (.invalidData ("Node '" ++ nodeId ++ "': bond interface '" ++
              bname ++ "' doesn't have mode"))
          | some bm =>
            if bm ∉ consts.bond_modes then
              .error (.invalidData ("Node '" ++ nodeId ++ "': bond interface '" ++ bname ++
                "' has unknown mode '" ++ bm ++ "'"))
            else .ok ()

/-- The per-interface body of NetAssignmentValidator.validate. -/
def validateIface (consts : NetConsts) (nodeId : String) (iface : IfacePayload)
    (net_ids : List Nat) : Except VErr (List Nat) :=
  match iface.itype with
  | none => .error (.invalidData ("Node '" ++ nodeId ++
      "': each interface must have a type"))
  | some t =>
    if ¬(t = "ether" ∨ t = "bond") then
      .error (.invalidData ("Node '" ++ nodeId ++ "': unknown interface type"))
    else if t = "ether" ∧ iface.iid = none then
      .error (.invalidData ("Node '" ++ nodeId ++ "': each HW interface must have ID"))
    else
      match (if t = "bond" then validateBondPart consts nodeId iface else .ok ()) with
      | .error e => .error e
      | .ok _ =>
        match iface.assigned_networks with
        | none => .error (.invalidData ("Node '" ++ nodeId ++ "', interface '" ++
            ifaceLabel iface ++ "': there is no 'assigned_networks' list"))
        | some nets => checkAssignedNets nodeId (ifaceLabel iface) nets net_ids

/-- The interface loop of NetAssignmentValidator.validate. -/
def validateIfaces (consts : NetConsts) (nodeId : String) :
    List IfacePayload → List Nat → Except VErr (List Nat)
  | [], acc => .ok acc
  | iface :: rest, acc =>
    match validateIface consts nodeId iface acc with
    | .ok acc2 => validateIfaces consts nodeId rest acc2
    | .error e => .error e

/-- NetAssignmentValidator.validate (the isinstance checks are enforced by
the payload types). -/
def NetAssignmentValidator.validate (consts : NetConsts) (node : NodePayload) :
    Except VErr NodePayload :=
  match node.nid with
  | none => .error (.invalidData "Each node should have ID")
  | some nid =>
    match node.interfaces with
    | none => .error (.invalidData ("Node '" ++ toString nid ++
        "': there is no 'interfaces' list"))
    | some ifaces =>
      match validateIfaces consts (toString nid) ifaces [] with
      | .ok _ => .ok node
      | .error e => .error e

/-- All network ids assigned across a node payload's interfaces, in
traversal order. -/
def nodeNetIds (node : NodePayload) : List Nat :=
  ((node.interfaces.getD []).map fun i =>
    (i.assigned_networks.getD []).filterMap (·.anid)).flatten

/-- A node's interface as stored in the DB (NIC or Bond), with the fields
the validator reads: identity, name, type, the PXE flag, its
interface_properties dict and whether it currently has assigned networks. -/
structure DbIface where
  dbid : Nat
  dbname : String
  dbtype : String
  pxe : Bool
  props : IfaceProps
  db_assigned_nonempty : Bool
deriving DecidableEq, Repr

/-- The DB and collaborator state NetAssignmentValidator.verify_data_correctness
consults.  `locked` embeds objects.Node.is_interfaces_configuration_locked,
`pxe_iface_name` embeds nm._get_pxe_iface_name, `prohibited_admin_bond_modes`
embeds nm.get_prohibited_admin_bond_modes, `dpdk_avail` embeds
objects.NIC/Bond.dpdk_available with the release's drivers baked in
(none of their bodies are under src/; all modelled from the spec),
`hypervisor` is the cluster's libvirt_type value, the remaining fields
embed the nodegroup/attribute queries. -/
structure NodeEnv where
  node_in_db : Bool
  db_node_id : Nat
  locked : Bool
  in_cluster : Bool
  nic_interfaces : List DbIface
  all_interfaces : List DbIface
  pxe_iface_name : Option String
  prohibited_admin_bond_modes : List String
  dpdk_avail : Nat → Bool
  hypervisor : String
  dpdk_hugepages : Bool
  nova_hugepages : Bool
  nodegroup_net_ids : List Nat
  nodegroup_is_default : Bool
  admin_net_id : Nat
  nodegroup_name : String
  should_have_public : Bool
  public_net_id : Option Nat

/-- NetAssignmentValidator._get_iface_by_id (`filter_by(id=None)` matches
nothing). -/
def _get_iface_by_id (i : Option Nat) (dbIfaces : List DbIface) : Option DbIface :=
  match i with
  | some i => dbIfaces.find? fun d => d.dbid = i
  | none => none

/-- NetAssignmentValidator._get_iface_by_name. -/
def _get_iface_by_name (n : String) (dbIfaces : List DbIface) : Option DbIface :=
  dbIfaces.find? fun d => d.dbname = n

/-- NetAssignmentValidator._verify_sriov_properties.  The DB sriov dict's
keys are read by direct indexing in the source (KeyError when absent); the
defaults used here stand for rows that always carry the keys. -/
def _verify_sriov_properties (dbIface : DbIface) (data : IfacePayload) (env : NodeEnv) :
    Except VErr Unit :=
  let sriov_db := dbIface.props.sriov.getD SriovP.emptyDict
  let sriov_data := (data.interface_properties.getD IfaceProps.emptyDict).sriov.getD
    SriovP.emptyDict
  let sriov_new := sriov_db.merge sriov_data
  let enabled_new := sriov_new.enabled.getD false
  if enabled_new = true ∧ env.hypervisor ≠ "kvm" then
    .error (.invalidData "Only KVM hypervisor works with SR-IOV.")
  else if sriov_db.sriov_totalvfs ≠ sriov_new.sriov_totalvfs then
    .error (.invalidData ("Node '" ++ toString env.db_node_id ++ "' interface '" ++
      dbIface.dbname ++ "': SR-IOV parameter 'sriov_totalvfs' cannot be changed through API"))
  else if sriov_db.available ≠ sriov_new.available then
    .error (.invalidData ("Node '" ++ toString env.db_node_id ++ "' interface '" ++
      dbIface.dbname ++ "': SR-IOV parameter 'available' cannot be changed through API"))
  else if sriov_db.pci_id ≠ sriov_new.pci_id then
    .error (.invalidData ("Node '" ++ toString env.db_node_id ++ "' interface '" ++
      dbIface.dbname ++ "': SR-IOV parameter 'pci_id' cannot be changed through API"))
  else if sriov_db.available.getD false = false ∧ enabled_new = true then
    .error (.invalidData ("Node '" ++ toString env.db_node_id ++ "' interface '" ++
      dbIface.dbname ++ "': SR-IOV cannot be enabled as it is not available"))
  else if (sriov_new.sriov_numvfs = none ∨ sriov_new.sriov_numvfs = some 0) ∧
      enabled_new = true then
    .error (.invalidData ("Node '" ++ toString env.db_node_id ++ "' interface '" ++
      dbIface.dbname ++ "': virtual functions can not be enabled for interface when" ++
      " 'sriov_numfs' option is not specified!"))
  else if (match sriov_new.sriov_numvfs with
      | some v => decide (sriov_db.sriov_totalvfs.getD 0 < v)
      | none => false) = true then
    .error (.invalidData ("Node '" ++ toString env.db_node_id ++ "' interface '" ++
      dbIface.dbname ++ "': '" ++ toString (sriov_new.sriov_numvfs.getD 0) ++
      "' virtual functions was requested but just '" ++
      toString (sriov_db.sriov_totalvfs.getD 0) ++ "' are available"))
  else if enabled_new = true ∧ (match data.assigned_networks with
      | some l => !l.isEmpty
      | none => dbIface.db_assigned_nonempty) = true then
    .error (.invalidData ("Node '" ++ toString env.db_node_id ++ "' interface '" ++
      dbIface.dbname ++ "': SR-IOV cannot be enabled when networks are assigned" ++
      " to the interface"))
  else .ok ()

/-- The db-interface resolution at the head of _verify_iface_dpdk_properties:
by the payload's id first, then by its name. -/
def resolveDbIface (iface : IfacePayload) (dbIfaces : List DbIface) : Option DbIface :=
  match _get_iface_by_id iface.iid dbIfaces with
  | some d => some d
  | none => _get_iface_by_name (iface.name.getD "") dbIfaces

/-- Whether the payload carries exactly one assigned network named
'private' (the condition of the DPDK network check). -/
def privateOnly (iface : IfacePayload) : Bool :=
  match iface.assigned_networks.getD [] with
  | [n] => n.aname == some "private"
  | _ => false

/-- The common tail of _verify_iface_dpdk_properties: availability, PCI-id
immutability, the single-private-network rule and the MTU bound. -/
def dpdkCommonChecks (iface : IfacePayload) (db_iface : Option DbIface)
    (props : IfaceProps) (hw_available enabled is_slave : Bool) : Except VErr Bool :=
  if hw_available = false ∧ enabled = true then
    .error (.invalidData ("DPDK is not available for '" ++ iface.name.getD "" ++ "'"))
  else
    match (match db_iface with
      | some dbi => if props.pci_id ≠ dbi.props.pci_id
          then some ("PCI-ID of '" ++ iface.name.getD "" ++ "' can't be changed manually")
          else none
      | none => none) with
    | some m => .error (.invalidData m)
    | none =>
      if enabled = true ∧ is_slave = false ∧ privateOnly iface = false then
        .error (.invalidData ("Only private network could be assigned to interface '" ++
          iface.name.getD "" ++ "' where DPDK is enabled"))
      else if enabled = true ∧ (match props.mtu with
          | some m => decide (1500 < m)
          | none => false) = true then
        .error (.invalidData ("For interface '" ++ iface.name.getD "" ++
          "' with enabled DPDK MTU size must be less than 1500 bytes"))
      else .ok enabled

/-- The merged interface_properties of a payload interface over its DB row
(`utils.dict_merge(db_iface.interface_properties, iface.get('interface_properties', \x7b\x7d))`). -/
def mergedProps (dbi : DbIface) (iface : IfacePayload) : IfaceProps :=
  IfaceProps.merge dbi.props (iface.interface_properties.getD IfaceProps.emptyDict)

/-- NetAssignmentValidator._verify_iface_dpdk_properties. -/
def _verify_iface_dpdk_properties (env : NodeEnv) (iface : IfacePayload)
    (dbIfaces : List DbIface) (is_slave : Bool) : Except VErr Bool :=
  match resolveDbIface iface dbIfaces with
  | none =>
    -- the user creates a new bond: availability is the conjunction over slaves
    let slaves := iface.slaves.getD []
    let hw_available := !slaves.isEmpty && slaves.all fun s =>
      match _get_iface_by_name (s.sname.getD "") dbIfaces with
      | some d => env.dpdk_avail d.dbid
      -- dpdk_available(None, drivers): the loop above has already rejected
      -- bonds whose slave is missing from the DB
      | none => false
    let interface_properties := iface.interface_properties.getD IfaceProps.emptyDict
    let enabled := ((interface_properties.dpdk.getD ⟨none⟩).enabled).getD false
    let bond_type := lookupStr (iface.bond_properties.getD []) "type__"
    if bond_type = some "dpdkovs" ∧ enabled = false then
      .error (.invalidData ("Bond interface '" ++ iface.name.getD "" ++
        "': DPDK should be enabled for 'dpdkovs' bond type"))
    else if bond_type ≠ some "dpdkovs" ∧ enabled = true then
      .error (.invalidData ("Bond interface '" ++ iface.name.getD "" ++
        "': DPDK can be enabled only for 'dpdkovs' bond type"))
    else dpdkCommonChecks iface none interface_properties hw_available enabled is_slave
  | some dbi =>
    let hw_available := env.dpdk_avail dbi.dbid
    let interface_properties := IfaceProps.merge dbi.props
      (iface.interface_properties.getD IfaceProps.emptyDict)
    let enabled := ((interface_properties.dpdk.getD ⟨none⟩).enabled).getD false
    dpdkCommonChecks iface (some dbi) interface_properties hw_available enabled is_slave

/-- The slave-name set collected at the head of
_verify_interfaces_dpdk_properties. -/
def collectSlaveNames (interfaces : List IfacePayload) : List String :=
  (interfaces.map fun i => (i.slaves.getD []).filterMap (·.sname)).flatten

/-- The fold of _verify_interfaces_dpdk_properties over the request's
interfaces, or-ing the per-interface results. -/
def dpdkFold (env : NodeEnv) (dbIfaces : List DbIface) (slaveNames : List String) :
    List IfacePayload → Bool → Except VErr Bool
  | [], acc => .ok acc
  | iface :: rest, acc =>
    match _verify_iface_dpdk_properties env iface dbIfaces
        (decide (iface.name.getD "" ∈ slaveNames)) with
    | .ok e => dpdkFold env dbIfaces slaveNames rest (acc || e)
    | .error er => .error er

/-- NetAssignmentValidator._verify_interfaces_dpdk_properties. -/
def _verify_interfaces_dpdk_properties (env : NodeEnv) (interfaces : List IfacePayload)
    (dbIfaces : List DbIface) : Except VErr Bool :=
  dpdkFold env dbIfaces (collectSlaveNames interfaces) interfaces false

/-- NetAssignmentValidator._verify_node_dpdk_properties. -/
def _verify_node_dpdk_properties (env : NodeEnv) : Except VErr Unit :=
  if env.dpdk_hugepages = false then
    .error (.invalidData ("Hugepages for DPDK are not configured for node '" ++
      toString env.db_node_id ++ "'"))
  else if env.nova_hugepages = false then
    .error (.invalidData ("Hugepages for Nova are not configured for node '" ++
      toString env.db_node_id ++ "'"))
  else if env.hypervisor ≠ "kvm" then
    .error (.invalidData "Only KVM hypervisor works with DPDK.")
  else .ok ()

/-- The `interfaces_by_name` dict comprehension of verify_data_correctness
(a later interface with the same name wins). -/
def interfacesByName (interfaces : List IfacePayload) (n : String) : Option IfacePayload :=
  interfaces.reverse.find? fun i => i.name.getD "" = n

/-- The slave loop of verify_data_correctness for one bond: threads the
`bonded_eth_ids` set and the pxe-slave flag. -/
def verifySlaves (env : NodeEnv) (interfaces : List IfacePayload) (nodeId : String)
    (bondName : String) : List SlaveRef → List Nat → Bool → Except VErr (List Nat × Bool)
  | [], bonded, pxe_present => .ok (bonded, pxe_present)
  | slave :: rest, bonded, pxe_present =>
    let sname := slave.sname.getD ""
    let pxe_present := pxe_present || (env.pxe_iface_name == some sname)
    match _get_iface_by_name sname env.nic_interfaces with
    | none => .error (.invalidData ("Node '" ++ nodeId ++ "': there is no interface '" ++
        sname ++ "' found for bond '" ++ bondName ++ "' in DB"))
    | some db_slave =>
      if db_slave.dbid ∈ bonded then
        .error (.invalidData ("Node '" ++ nodeId ++ "': interface '" ++
          toString db_slave.dbid ++ "' is used in bonds more than once"))
      else
        let cur_props := ((interfacesByName interfaces sname).map fun c =>
          c.interface_properties.getD IfaceProps.emptyDict).getD IfaceProps.emptyDict
        let iface_props := IfaceProps.merge db_slave.props cur_props
        if ((iface_props.sriov.getD SriovP.emptyDict).enabled.getD false) = true then
          .error (.invalidData ("Node '" ++ nodeId ++ "': bond '" ++ bondName ++
            "' cannot contain SRIOV enabled interface '" ++ sname ++ "'"))
        else verifySlaves env interfaces nodeId bondName rest (bonded ++ [db_slave.dbid])
          pxe_present

/-- The names of the networks assigned to a payload interface
(`[n.get('name') for n in iface.get('assigned_networks')]`). -/
def ifaceNetNames (iface : IfacePayload) : List (Option String) :=
  (iface.assigned_networks.getD []).map (·.aname)

/-- The per-interface body of the first loop of verify_data_correctness. -/
def verifyIface1 (env : NodeEnv) (interfaces : List IfacePayload) (nodeId : String)
    (iface : IfacePayload) (bonded : List Nat) : Except VErr (List Nat) :=
  let iface_nets := ifaceNetNames iface
  if iface_nets ≠ [] ∧ env.in_cluster = false then
    .error (.invalidData ("Node '" ++ nodeId ++ "': networks " ++
      String.intercalate ", " (iface_nets.map (·.getD "None")) ++
      " cannot be assigned as the node is not added to any cluster"))
  else if iface.itype = some "ether" then
    match _get_iface_by_id iface.iid env.nic_interfaces with
    | none => .error (.invalidData ("Node '" ++ nodeId ++
        "': there is no interface with ID '" ++ toString (iface.iid.getD 0) ++ "' in DB"))
    | some db_iface =>
      if db_iface.pxe = false ∧ some NETWORKS_fuelweb_admin ∈ iface_nets then
        .error (.invalidData ("Node '" ++ nodeId ++
          "': admin network can not be assigned to non-pxe interface " ++
          iface.name.getD ""))
      else
        match (iface.interface_properties.getD IfaceProps.emptyDict).sriov with
        | some s =>
          if s.isEmptyDict then .ok bonded
          else
            match _verify_sriov_properties db_iface iface env with
            | .ok _ => .ok bonded
            | .error e => .error e
        | none => .ok bonded
  else if iface.itype = some "bond" then
    match verifySlaves env interfaces nodeId (iface.name.getD "")
        (iface.slaves.getD []) bonded false with
    | .error e => .error e
    | .ok (bonded2, pxe_present) =>
      if some NETWORKS_fuelweb_admin ∈ iface_nets then
        if (match get_bond_mode iface with
            | some m => decide (m ∈ env.prohibited_admin_bond_modes)
            | none => false) = true then
          .error (.invalidData ("Node '" ++ nodeId ++ "': interface '" ++
            iface.name.getD "" ++ "' belongs to admin network and has lacp mode '" ++
            (get_bond_mode iface).getD "" ++ "'"))
        else if pxe_present = false then
          .error (.invalidData ("Node '" ++ nodeId ++ "': interface '" ++
            iface.name.getD "" ++
            "' belongs to admin network and doesn't contain node's pxe interface '" ++
            env.pxe_iface_name.getD "" ++ "'"))
        else .ok bonded2
      else .ok bonded2
  else .ok bonded

/-- The first interface loop of verify_data_correctness. -/
def verifyLoop1 (env : NodeEnv) (interfaces : List IfacePayload) (nodeId : String) :
    List IfacePayload → List Nat → Except VErr (List Nat)
  | [], bonded => .ok bonded
  | iface :: rest, bonded =>
    match verifyIface1 env interfaces nodeId iface bonded with
    | .ok b => verifyLoop1 env interfaces nodeId rest b
    | .error e => .error e

/-- The second loop of verify_data_correctness: a bonded physical interface
must not carry direct assignments. -/
def verifyLoop2 (nodeId : String) (bonded : List Nat) :
    List IfacePayload → Except VErr Unit
  | [] => .ok ()
  | iface :: rest =>
    if iface.itype = some "ether" ∧ (iface.iid.getD 0) ∈ bonded ∧
        ¬(iface.assigned_networks.getD []).isEmpty then
      .error (.invalidData ("Node '" ++ nodeId ++ "': interface '" ++
        toString (iface.iid.getD 0) ++
        "' cannot have assigned networks as it is used in bond"))
    else verifyLoop2 nodeId bonded rest

/-- NetAssignmentValidator.check_networks_are_acceptable_for_node_to_assign. -/
def check_networks_are_acceptable_for_node_to_assign (env : NodeEnv)
    (interfaces : List IfacePayload) : Except VErr Unit :=
  let net_group_ids := env.nodegroup_net_ids ++
    (if env.nodegroup_is_default then [env.admin_net_id] else [])
  let net_ids := ((interfaces.map fun i =>
    (i.assigned_networks.getD []).filterMap (·.anid)).flatten)
  if net_ids ≠ [] then
    if ¬ net_ids.all (· ∈ net_group_ids) then
      .error (.invalidData ("Node '" ++ toString env.db_node_id ++
        "': networks with IDs '" ++
        String.intercalate ", " ((net_ids.filter (· ∉ net_group_ids)).map toString) ++
        "' cannot be used because they are not in node group '" ++
        env.nodegroup_name ++ "'"))
    else
      let scoped_ids := if env.should_have_public = false then
          (match env.public_net_id with
           | some p => net_group_ids.filter (· ≠ p)
           | none => net_group_ids)
        else net_group_ids
      let unassigned := scoped_ids.filter (· ∉ net_ids)
      if unassigned ≠ [] then
        .error (.invalidData ("Node '" ++ toString env.db_node_id ++ "': " ++
          String.intercalate "," (unassigned.map toString) ++
          " network(s) are left unassigned"))
      else .ok ()
  else .ok ()

/-- NetAssignmentValidator.verify_data_correctness. -/
def NetAssignmentValidator.verify_data_correctness (env : NodeEnv) (node : NodePayload) :
    Except VErr Unit :=
  if env.node_in_db = false then
    .error (.invalidData ("There is no node with ID '" ++
      toString (node.nid.getD 0) ++ "' in DB"))
  else if env.locked = true then
    .error (.invalidData ("Node '" ++ toString env.db_node_id ++
      "': Interfaces configuration can't be changed after or during deployment."))
  else
    let interfaces := node.interfaces.getD []
    let nodeId := toString (node.nid.getD 0)
    if env.pxe_iface_name = none then
      .error (.invalidData ("Node '" ++ nodeId ++
        "': Interfaces configuration can't be changed ifthere is no pxe interface in DB"))
    else
      match verifyLoop1 env interfaces nodeId interfaces [] with
      | .error e => .error e
      | .ok bonded =>
        match verifyLoop2 nodeId bonded interfaces with
        | .error e => .error e
        | .ok _ =>
          match _verify_interfaces_dpdk_properties env interfaces env.all_interfaces with
          | .error e => .error e
          | .ok dpdk_enabled =>
            match (if dpdk_enabled then _verify_node_dpdk_properties env else .ok ()) with
            | .error e => .error e
            | .ok _ =>
              if env.in_cluster then
                check_networks_are_acceptable_for_node_to_assign env interfaces
              else .ok ()

/-- Python truthiness of an optional integer (`not ng_db.group_id`). -/
def natOptTruthy : Option Nat → Bool
  | some n => n != 0
  | none => false

/-- `d.get('id') or kwargs['instance'].id` of NetworkGroupValidator.validate_update. -/
def resolveNetId (d : NgData) (inst : NgDb) : Nat :=
  match d.id with
  | some i => if i = 0 then inst.id else i
  | none => inst.id

/-- The state NetworkGroupValidator.validate_update consults on top of
`NetEnv`: the NetworkGroup table, the nodegroup's name, and whether a name
is already taken in the group's nodegroup
(objects.NetworkGroup.get_from_node_group_by_name, modelled from the spec:
its body is not under src/). -/
structure NgvEnv where
  net_env : NetEnv
  groups : List NgDb
  nodegroup_name : String
  name_taken : String → Bool

/-- NetworkGroupValidator._check_duplicate_network_name. -/
def _check_duplicate_network_name (env : NgvEnv) (network_name : String) :
    Except VErr Unit :=
  if env.name_taken network_name then
    .error (.alreadyExists ("Network with name " ++ network_name ++
      " already exists in node group " ++ env.nodegroup_name))
  else .ok ()

/-- NetworkGroupValidator.validate_update (schema validation is enforced by
the payload type). -/
def NetworkGroupValidator.validate_update (d : NgData) (env : NgvEnv) (inst : NgDb) :
    Except VErr NgData :=
  let d := { d with group_id := none }
  let net_id := resolveNetId d inst
  match env.groups.find? fun g => g.id = net_id with
  -- `ng_db.group_id` on a missing row: AttributeError, not InvalidData
  | none => .error (.pyError "AttributeError")
  | some ng_db =>
    if natOptTruthy ng_db.group_id = false then
      .error (.invalidData "Default Admin-pxe network cannot be changed")
    else
      match (if d.name.isSome ∧ d.name ≠ some ng_db.name then
          _check_duplicate_network_name env (d.name.getD "")
        else .ok ()) with
      | .error e => .error e
      | .ok _ => validate_network_group d ng_db env.net_env

/-- NetworkGroupValidator.validate_delete. -/
def NetworkGroupValidator.validate_delete (inst : NgDb) : Except VErr Unit :=
  if natOptTruthy inst.group_id = false then
    .error (.invalidData "Default Admin-pxe network cannot be deleted")
  else .ok ()

/-
Concrete inputs for the witness and counterexample theorems.
-/

/-- An empty network-group edit payload. -/
def ngDataEmpty : NgData := ⟨none, none, none, none, none, none, none, none⟩

/-- C1 witness input: a 10.0.0.0/24 group in 'ip_ranges' notation with two
allocated addresses. -/
def c1db : NgDb :=
  { id := 3, name := "management", cidr := some ⟨167772160, 24⟩,
    ip_ranges := [⟨167772162, 167772170⟩], release := none, gateway := none,
    meta_nota := some "ip_ranges", meta_use_gateway := some false, group_id := some 1 }

/-- C1 witness edit: the proposed new range [10.0.0.10, 10.0.0.50]. -/
def c1data : NgData :=
  { ngDataEmpty with id := some 3, name := some "management",
                     ip_ranges := some [⟨167772170, 167772210⟩] }

/-- C1 witness environment: 10.0.0.5 and 10.0.0.9 are allocated, cluster
deployed. -/
def c1env : NetEnv :=
  { assigned_ips := [167772165, 167772169], default_group_node_ips := [],
    own_group_node_ips := [], cluster_status := "operational" }

/-- C2/C7 shared rows: a VIP row holding 10.0.0.5 and a second row holding
the same address in another network. -/
def c2row : IpRow :=
  { rid := 11, network := 3, node := none, ip_addr := 167772165,
    is_user_defined := true, vip_name := some "public_vip", vip_namespace := none,
    network_name := "public", network_cidr := "172.16.0.0/24" }

/-- C2 creation payload requesting the occupied address 10.0.0.5. -/
def c2data : VipCreateData :=
  { ip_addr := 167772165, network := 3, vip_name := "my_vip",
    is_user_defined := some true, vip_namespace := none }

/-- C2 environment: the name is declared, the network belongs to the
cluster, and the address is already in use. -/
def c2env : VipEnv :=
  { allowed_vip_names := ["my_vip"], networks := [⟨3, some 7⟩], cluster_id := 7,
    ip_db := [c2row] }

/-- C7 record under update: it already holds the address 10.0.0.5. -/
def c7ex : IpRow :=
  { rid := 5, network := 3, node := none, ip_addr := 167772165,
    is_user_defined := true, vip_name := some "my_vip", vip_namespace := none,
    network_name := "management", network_cidr := "10.0.0.0/24" }

/-- C7 conflicting row: a different record that also holds 10.0.0.5. -/
def c7other : IpRow := c2row

/-- C7 IPAddr table: the record being updated comes first in query order. -/
def c7db : List IpRow := [c7ex, c7other]

/-- C7 update payload: re-save the record's own address as user defined. -/
def c7data : IpUpdateData :=
  { rid := none, network := none, node := none, ip_addr := some 167772165,
    is_user_defined := some true, vip_name := none, vip_namespace := none }

/-- C3 counterexample DB row: 10.0.0.0/24 in 'cidr' notation whose
use_gateway flag is off while a gateway is present. -/
def c3db : NgDb :=
  { id := 4, name := "storage", cidr := some ⟨167772160, 24⟩, ip_ranges := [],
    release := none, gateway := some 167772161, meta_nota := some "cidr",
    meta_use_gateway := some false, group_id := some 1 }

/-- C3 counterexample edit payload: empty (everything resolves from the DB). -/
def c3data : NgData := ngDataEmpty

/-- C4 counterexample network: flagged dedicated_nic. -/
def c4n : NetG := ⟨9, false, true⟩

/-- C4 counterexample interface state: two interfaces with nothing assigned. -/
def c4s : List (List NetG) := [[], []]

/-- C4 witness network: a plain (non-dedicated) network. -/
def c4wn : NetG := ⟨10, false, false⟩

/-- C5 witness consts. -/
def c5consts : NetConsts :=
  { bond_modes := ["balance-rr", "active-backup", "802.3ad"],
    bond_properties := ["mode", "xmit_hash_policy", "lacp_rate", "type__"] }

/-- C5 witness payload: two ether interfaces carrying distinct networks. -/
def c5node : NodePayload :=
  { nid := some 1,
    interfaces := some
      [{ itype := some "ether", iid := some 1, name := some "eth0", slaves := none,
         mode := none, bond_properties := none,
         assigned_networks := some [⟨some 2, some "public"⟩, ⟨some 3, some "management"⟩],
         interface_properties := none },
       { itype := some "ether", iid := some 2, name := some "eth1", slaves := none,
         mode := none, bond_properties := none,
         assigned_networks := some [⟨some 4, some "storage"⟩],
         interface_properties := none }] }

/-- C6/C8 DB interfaces: eth0 is the PXE interface, eth1 is not. -/
def c6eth0 : DbIface :=
  { dbid := 1, dbname := "eth0", dbtype := "ether", pxe := true,
    props := IfaceProps.emptyDict, db_assigned_nonempty := true }

/-- The non-PXE DB interface eth1. -/
def c6eth1 : DbIface :=
  { dbid := 2, dbname := "eth1", dbtype := "ether", pxe := false,
    props := IfaceProps.emptyDict, db_assigned_nonempty := true }

/-- C6/C8 environment. -/
def c6env : NodeEnv :=
  { node_in_db := true, db_node_id := 1, locked := false, in_cluster := true,
    nic_interfaces := [c6eth0, c6eth1], all_interfaces := [c6eth0, c6eth1],
    pxe_iface_name := some "eth0", prohibited_admin_bond_modes := ["802.3ad"],
    dpdk_avail := fun _ => true, hypervisor := "kvm", dpdk_hugepages := true,
    nova_hugepages := true, nodegroup_net_ids := [2, 3], nodegroup_is_default := true,
    admin_net_id := 1, nodegroup_name := "default", should_have_public := true,
    public_net_id := some 2 }

/-- C6 witness payload: the admin network reassigned to the non-PXE eth1. -/
def c6node : NodePayload :=
  { nid := some 1,
    interfaces := some
      [{ itype := some "ether", iid := some 2, name := some "eth1", slaves := none,
         mode := none, bond_properties := none,
         assigned_networks := some [⟨some 1, some NETWORKS_fuelweb_admin⟩],
         interface_properties := none }] }

/-- C8 witness payload interface: DPDK enabled on eth1 with only the private
network and an explicit MTU. -/
def c8iface (mtu : Option Nat) : IfacePayload :=
  { itype := some "ether", iid := some 2, name := some "eth1", slaves := none,
    mode := none, bond_properties := none,
    assigned_networks := some [⟨some 5, some "private"⟩],
    interface_properties := some ⟨none, some ⟨some true⟩, none, mtu⟩ }

/-- C9 witness: the default Admin-pxe network row (group_id unset). -/
def c9admin : NgDb :=
  { id := 1, name := NETWORKS_fuelweb_admin, cidr := some ⟨169083392, 24⟩,
    ip_ranges := [⟨169083394, 169083646⟩], release := none, gateway := some 169083393,
    meta_nota := some "ip_ranges", meta_use_gateway := some true, group_id := none }

/-- C9 witness environment. -/
def c9env : NgvEnv :=
  { net_env := { assigned_ips := [], default_group_node_ips := [],
                 own_group_node_ips := [], cluster_status := "new" },
    groups := [c9admin], nodegroup_name := "default", name_taken := fun _ => false }

/-- C10 witness: a record whose update hits the address-intersection check. -/
def c10rec : IpUpdateData :=
  { rid := some 5, network := none, node := none, ip_addr := some 167772165,
    is_user_defined := some true, vip_name := none, vip_namespace := none }

/-- C10 witness VIP row: the cluster VIP being updated (it does not hold the
requested address). -/
def c10vip : IpRow :=
  { rid := 5, network := 3, node := none, ip_addr := 167772166,
    is_user_defined := true, vip_name := some "my_vip", vip_namespace := none,
    network_name := "management", network_cidr := "10.0.0.0/24" }

/-- C10 witness IPAddr table: a different record holds the requested
address. -/
def c10db : List IpRow := [c2row, c10vip]

/-- C1: with the resolution/consistency checks passing and the group being
the admin network or its cluster not in status 'new', validate_network_group
raises the coverage InvalidData error exactly when the already allocated
IPs of the group (including bootstrap node IPs for the admin network) are
not all covered by the effective ranges; when they are covered, no
coverage error is raised. -/
theorem validate_network_group_coverage (d : NgData) (g : NgDb) (env : NetEnv)
    (nm : String) (i : Nat)
    (hpre : g.name = NETWORKS_fuelweb_admin ∨ env.cluster_status ≠ "new")
    (hrel : resolved_release d g = g.release)
    (hgw : ¬(resolved_use_gateway d g = true ∧ resolved_gateway d g = none))
    (hranges : ¬(resolved_ip_ranges d g = [] ∧ resolved_nota d g = some "ip_ranges"))
    (hcidr : ¬((resolved_nota d g = some "cidr" ∨ resolved_nota d g = some "ip_ranges") ∧
      resolved_cidr d g = none ∧ g.cidr = none))
    (hname : d.name = some nm) (hid : d.id = some i) :
    validate_network_group d g env =
        Except.error (.invalidData ("New IP ranges for network '" ++ nm ++ "'(" ++
          toString i ++ ") do not cover already allocated IPs.")) ↔
      check_ips_belong_to_ranges (allocated_ips g env) (effective_ranges d g) = false := by
  have h1 : ¬(resolved_release d g ≠ g.release) := by simpa using hrel
  by_cases hc : check_ips_belong_to_ranges (allocated_ips g env) (effective_ranges d g) = true
  · have hchk : _check_ips_out_of_ip_ranges g env (effective_ranges d g) = false := by
      simp [_check_ips_out_of_ip_ranges, hc]
    simp only [validate_network_group, if_neg h1, if_neg hgw, if_neg hranges, if_neg hcidr]
    rw [if_neg]
    · simp [hc]
    · intro h
      rw [show _get_network_ip_ranges d g (resolved_nota d g) (resolved_gateway d g ≠ none) =
        effective_ranges d g from rfl, hchk] at h
      exact absurd h.2 (by simp)
  · have hc2 : check_ips_belong_to_ranges (allocated_ips g env) (effective_ranges d g) = false := by
      revert hc; cases check_ips_belong_to_ranges (allocated_ips g env) (effective_ranges d g) <;> simp
    have hchk : _check_ips_out_of_ip_ranges g env (effective_ranges d g) = true := by
      simp [_check_ips_out_of_ip_ranges, hc2]
    simp only [validate_network_group, if_neg h1, if_neg hgw, if_neg hranges, if_neg hcidr]
    rw [if_pos]
    · simp [hname, hid, hc2]
    · refine ⟨hpre, ?_⟩
      rw [show _get_network_ip_ranges d g (resolved_nota d g) (resolved_gateway d g ≠ none) =
        effective_ranges d g from rfl, hchk]

/-- C1 witness: the spec's scenario (10.0.0.5 and 10.0.0.9 allocated,
proposed range [10.0.0.10, 10.0.0.50]) instantiates the theorem; the range
does not cover 10.0.0.5 and the coverage error is raised. -/
theorem validate_network_group_coverage_witness :
    (validate_network_group c1data c1db c1env =
        Except.error (.invalidData ("New IP ranges for network '" ++ "management" ++ "'(" ++
          toString 3 ++ ") do not cover already allocated IPs.")) ↔
      check_ips_belong_to_ranges (allocated_ips c1db c1env)
        (effective_ranges c1data c1db) = false) ∧
    check_ips_belong_to_ranges (allocated_ips c1db c1env)
      (effective_ranges c1data c1db) = false :=
  ⟨validate_network_group_coverage c1data c1db c1env "management" 3
    (by decide) (by decide) (by decide) (by decide) (by decide) (by decide) (by decide),
   by decide⟩

/-- C3 counterexample: a network resolved to 'cidr' notation whose
use_gateway flag is off but whose gateway is set: the validator's effective
ranges start at the CIDR's index 2, while the claim's reading (skip iff the
use_gateway flag) starts them at index 1. -/
theorem effective_ranges_ce :
    effective_ranges c3data c3db ≠ spec_effective_ranges c3data c3db ∧
    resolved_use_gateway c3data c3db = false ∧
    resolved_nota c3data c3db = some "cidr" := by decide

/-- C3 amended: for a network-group edit resolved to notation 'cidr' the
effective ranges are the single inclusive range over the CIDR minus network
and broadcast addresses, with the first usable address additionally skipped
iff the resolved gateway is present (not iff the use_gateway flag is set);
for notation 'ip_ranges' they are the resolved ip_ranges themselves. -/
theorem effective_ranges_characterization (d : NgData) (g : NgDb) (c : Cidr) :
    (resolved_nota d g = some "cidr" → resolved_cidr d g = some c →
      effective_ranges d g =
        [⟨c.netAddr + (if resolved_gateway d g ≠ none then 2 else 1),
          c.netAddr + (c.size - 2)⟩]) ∧
    (resolved_nota d g = some "ip_ranges" →
      effective_ranges d g = resolved_ip_ranges d g) := by
  constructor
  · intro hn hc
    have hne : resolved_nota d g ≠ some "ip_ranges" := by simp [hn]
    simp only [effective_ranges, _get_network_ip_ranges, if_neg hne, if_pos hn]
    rw [show (d.cidr <|> g.cidr) = resolved_cidr d g from rfl, hc]
    by_cases hg : resolved_gateway d g = none
    · simp [hg, Cidr.index, Cidr.penultimate]
    · simp [hg, Cidr.index, Cidr.penultimate]
  · intro hn
    simp only [effective_ranges, _get_network_ip_ranges, if_pos hn]
    rfl

/-- C3 amended witness: the counterexample input instantiates the amended
characterization. -/
theorem effective_ranges_characterization_witness :
    effective_ranges c3data c3db =
      [⟨(Cidr.mk 167772160 24).netAddr + 2,
        (Cidr.mk 167772160 24).netAddr + ((Cidr.mk 167772160 24).size - 2)⟩] := by
  have h := (effective_ranges_characterization c3data c3db ⟨167772160, 24⟩).1
    (by decide) (by decide)
  rw [h]
  decide

/-- C2 counterexample: a creation request for an address that is already in
use fails, but with InvalidData, not with AlreadyExists as claimed. -/
theorem validate_create_ce :
    isAlreadyExistsErr (IPAddrValidator.validate_create c2data c2env) = false ∧
    isOkE (IPAddrValidator.validate_create c2data c2env) = false ∧
    (c2env.ip_db.any fun r => r.ip_addr = c2data.ip_addr) = true := by decide

/-- C2 amended: with the name/network/nodegroup preconditions satisfied,
validate_create fails (with InvalidData, not AlreadyExists) exactly when
some existing IPAddr row anywhere carries the requested address, and
succeeds otherwise. -/
theorem validate_create_addr_in_use (data : VipCreateData) (env : VipEnv)
    (nrow : VipNetRow)
    (h1 : data.is_user_defined ≠ some false)
    (h2 : data.vip_name ∈ env.allowed_vip_names)
    (h3 : env.networks.find? (fun n => n.nid = data.network) = some nrow)
    (h4 : nrow.nodegroup_cluster_id = some env.cluster_id) :
    IPAddrValidator.validate_create data env =
      if env.ip_db.any fun r => r.ip_addr = data.ip_addr then
        Except.error (.invalidData ("VIP cannot be created as ip address " ++
          toString data.ip_addr ++ " is already in use"))
      else Except.ok data := by
  have h2' : ¬ data.vip_name ∉ env.allowed_vip_names := by simpa using h2
  simp only [IPAddrValidator.validate_create, if_neg h1, if_neg h2', h3, h4]
  rw [if_neg (by simp)]
  by_cases hany : (env.ip_db.any fun r => r.ip_addr = data.ip_addr) = true
  · obtain ⟨r, hr, hra⟩ := List.any_eq_true.mp hany
    have hne : get_all_by_addr env.ip_db data.ip_addr ≠ [] := by
      simp only [get_all_by_addr, ne_eq, List.filter_eq_nil_iff]
      intro h
      exact h r hr hra
    obtain ⟨x, hx⟩ := Option.isSome_iff_exists.mp (List.head?_isSome.mpr hne)
    rw [hx, if_pos hany]
  · have hnone : (get_all_by_addr env.ip_db data.ip_addr).head? = none := by
      rw [List.head?_eq_none_iff]
      rw [get_all_by_addr, List.filter_eq_nil_iff]
      intro r hr
      by_contra hra
      exact hany (List.any_eq_true.mpr ⟨r, hr, by simpa using hra⟩)
    rw [hnone, if_neg hany]

/-- C2 amended witness: the occupied-address request instantiates the
amended theorem and yields the InvalidData failure. -/
theorem validate_create_addr_in_use_witness :
    IPAddrValidator.validate_create c2data c2env =
      if c2env.ip_db.any fun r => r.ip_addr = c2data.ip_addr then
        Except.error (.invalidData ("VIP cannot be created as ip address " ++
          toString c2data.ip_addr ++ " is already in use"))
      else Except.ok c2data :=
  validate_create_addr_in_use c2data c2env ⟨3, some 7⟩
    (by decide) (by decide) (by decide) (by decide)

/-- C7 counterexample: the record being updated re-saves its own address
while a different record also holds that address; the intersection query
returns the record itself first, so no AlreadyExists is raised even though
a different record holds the address. -/
theorem validate_update_intersection_ce :
    IPAddrValidator.validate_update c7data c7ex c7db = Except.ok c7data ∧
    c7other ∈ c7db ∧ c7other.ip_addr = 167772165 ∧ c7other.rid ≠ c7ex.rid ∧
    c7data.ip_addr = some 167772165 ∧ c7data.is_user_defined = some true := by decide

/-- C7 amended: for a user-defined update carrying an address, with no
non-updatable field changed: when the intersection query returns no row, or
returns the record being updated itself (in particular when it is the only
row holding the address), no error is raised; when the first row it returns
is a different record — which is always the case when the record being
updated does not itself hold the address — validate_update fails with
AlreadyExists naming the conflicting network's name and CIDR. -/
theorem validate_update_intersection (data : IpUpdateData) (ex : IpRow)
    (db : List IpRow) (a : Addr) (r : IpRow)
    (hu : data.is_user_defined = some true) (ha : data.ip_addr = some a)
    (hb : bad_fields data ex = []) :
    ((get_all_by_addr db a).head? = none →
      IPAddrValidator.validate_update data ex db = Except.ok data) ∧
    ((get_all_by_addr db a).head? = some r →
      (r.rid = ex.rid → IPAddrValidator.validate_update data ex db = Except.ok data) ∧
      (r.rid ≠ ex.rid → IPAddrValidator.validate_update data ex db =
        Except.error (.alreadyExists ("IP address " ++ toString a ++
          " is already allocated within " ++ r.network_name ++
          " network with CIDR " ++ r.network_cidr)))) := by
  have hb' : ¬(bad_fields data ex ≠ []) := by simp [hb]
  constructor
  · intro hh
    simp only [IPAddrValidator.validate_update, if_neg hb', hu, ha,
      _check_vip_addr_intersection, hh]
  · intro hh
    constructor
    · intro hr
      simp only [IPAddrValidator.validate_update, if_neg hb', hu, ha,
        _check_vip_addr_intersection, hh, if_pos hr]
    · intro hr
      simp only [IPAddrValidator.validate_update, if_neg hb', hu, ha,
        _check_vip_addr_intersection, hh, if_neg hr]

/-- C7 amended witness: updating a VIP to an address held only by a
different record raises the AlreadyExists error with that record's network
name and CIDR. -/
theorem validate_update_intersection_witness :
    IPAddrValidator.validate_update c10rec c10vip c10db =
      Except.error (.alreadyExists ("IP address " ++ toString 167772165 ++
        " is already allocated within " ++ "public" ++
        " network with CIDR " ++ "172.16.0.0/24")) :=
  ((validate_update_intersection c10rec c10vip c10db 167772165 c2row
    (by decide) (by decide) (by decide)).2 (by decide)).2 (by decide)

/-- Helper: the collection loop over an appended record list runs the first
part and, unless it escaped with an uncaught error, continues on the second
with the accumulated messages. -/
theorem collectVipErrors_append (vips db : List IpRow) (cid : Nat)
    (l1 l2 : List IpUpdateData) (msgs : List String) :
    collectVipErrors vips db cid (l1 ++ l2) msgs =
      match collectVipErrors vips db cid l1 msgs with
      | .ok m2 => collectVipErrors vips db cid l2 m2
      | .error e => .error e := by
  induction l1 generalizing msgs with
  | nil => simp [collectVipErrors]
  | cons r rest ih =>
    simp only [List.cons_append, collectVipErrors]
    cases hf : vips.find? fun v => r.rid = some v.rid with
    | some inst =>
      dsimp only
      cases hv : IPAddrValidator.validate_update r inst db with
      | ok _ => dsimp only; exact ih msgs
      | error e =>
        cases e with
        | invalidData m => dsimp only; exact ih (msgs ++ [m])
        | alreadyExists m => dsimp only
        | pyError m => dsimp only
    | none => dsimp only; exact ih (msgs ++ [vipNotFoundMsg r.rid cid])

/-- C10: validate_collection_update catches only InvalidData per record,
raising one combined InvalidData from the accumulated messages at the end;
an AlreadyExists raised by the address-intersection check of some record is
not caught and propagates at once, so the remaining records (any tail) are
never validated. -/
theorem validate_collection_update_error_policy (vips db : List IpRow) (cid : Nat)
    (pre rest : List IpUpdateData) (record : IpUpdateData) (inst : IpRow)
    (m : String) (msgs : List String) (records : List IpUpdateData)
    (msgs2 : List String) :
    ((collectVipErrors vips db cid pre [] = Except.ok msgs ∧
      (vips.find? fun v => record.rid = some v.rid) = some inst ∧
      IPAddrValidator.validate_update record inst db =
        Except.error (.alreadyExists m)) →
      IPAddrValidator.validate_collection_update (pre ++ record :: rest) vips db cid =
        Except.error (.alreadyExists m)) ∧
    (collectVipErrors vips db cid records [] = Except.ok msgs2 →
      IPAddrValidator.validate_collection_update records vips db cid =
        (if msgs2.isEmpty then Except.ok records
         else Except.error (.invalidData (String.intercalate "\n" msgs2)))) := by
  constructor
  · rintro ⟨h1, h2, h3⟩
    have : collectVipErrors vips db cid (pre ++ record :: rest) [] =
        Except.error (.alreadyExists m) := by
      rw [collectVipErrors_append, h1]
      simp only [collectVipErrors, h2, h3]
    simp only [IPAddrValidator.validate_collection_update, this]
  · intro h
    simp only [IPAddrValidator.validate_collection_update, h]

/-- C10 witness: a batch holding one record whose new user-defined address
is held by another row ends in the propagated AlreadyExists. -/
theorem validate_collection_update_error_policy_witness :
    IPAddrValidator.validate_collection_update ([] ++ c10rec :: []) [c10vip] c10db 7 =
      Except.error (.alreadyExists ("IP address " ++ toString 167772165 ++
        " is already allocated within " ++ "public" ++
        " network with CIDR " ++ "172.16.0.0/24")) :=
  (validate_collection_update_error_policy [c10vip] c10db 7 [] [] c10rec c10vip
      _ [] [] []).1 ⟨by decide, by decide, by decide⟩

/-- C9: a network group without group_id (only the default Admin-pxe
network lacks one) can be neither updated nor deleted: validate_update and
validate_delete fail with InvalidData before any other processing,
whatever the payload. -/
theorem default_admin_network_immutable (d : NgData) (env : NgvEnv) (inst g : NgDb)
    (hfind : (env.groups.find? fun x => x.id = resolveNetId d inst) = some g)
    (hunset : g.group_id = none) :
    NetworkGroupValidator.validate_update d env inst =
      Except.error (.invalidData "Default Admin-pxe network cannot be changed") ∧
    (inst.group_id = none →
      NetworkGroupValidator.validate_delete inst =
        Except.error (.invalidData "Default Admin-pxe network cannot be deleted")) := by
  constructor
  · have hid : resolveNetId { d with group_id := none } inst = resolveNetId d inst := rfl
    simp only [NetworkGroupValidator.validate_update, hid, hfind, hunset]
    rw [if_pos (show natOptTruthy none = false from rfl)]
  · intro h
    simp only [NetworkGroupValidator.validate_delete, h]
    rw [if_pos (show natOptTruthy none = false from rfl)]

/-- C9 witness: the default Admin-pxe network of the concrete environment
is rejected by both validators. -/
theorem default_admin_network_immutable_witness :
    NetworkGroupValidator.validate_update ngDataEmpty c9env c9admin =
      Except.error (.invalidData "Default Admin-pxe network cannot be changed") ∧
    (c9admin.group_id = none →
      NetworkGroupValidator.validate_delete c9admin =
        Except.error (.invalidData "Default Admin-pxe network cannot be deleted")) :=
  default_admin_network_immutable ngDataEmpty c9env c9admin c9admin
    (by decide) (by decide)

/-- Helper: a successful run of the assigned-networks loop of
NetAssignmentValidator.validate appends exactly the interface's network ids
to the accumulated set and preserves its freedom from duplicates. -/
theorem checkAssignedNets_ok (nodeId label : String) (nets : List AssignedNetRef)
    (acc acc2 : List Nat)
    (h : checkAssignedNets nodeId label nets acc = Except.ok acc2) :
    acc2 = acc ++ nets.filterMap (·.anid) ∧ (acc.Nodup → acc2.Nodup) := by
  induction nets generalizing acc with
  | nil =>
    simp only [checkAssignedNets] at h
    cases h
    simp
  | cons net rest ih =>
    simp only [checkAssignedNets] at h
    cases ha : net.anid with
    | none => rw [ha] at h; cases h
    | some nid =>
      rw [ha] at h
      dsimp only at h
      by_cases hm : nid ∈ acc
      · rw [if_pos hm] at h; cases h
      · rw [if_neg hm] at h
        obtain ⟨heq, hnd⟩ := ih (acc ++ [nid]) h
        constructor
        · simp only [heq, ha, List.filterMap_cons]
          simp
        · intro hacc
          apply hnd
          simp only [List.nodup_append, hacc]
          simp [hm]

/-- Helper: a successful per-interface run of validate appends exactly the
interface's network ids and preserves freedom from duplicates. -/
theorem validateIface_ok (consts : NetConsts) (nodeId : String) (iface : IfacePayload)
    (acc acc2 : List Nat)
    (h : validateIface consts nodeId iface acc = Except.ok acc2) :
    acc2 = acc ++ (iface.assigned_networks.getD []).filterMap (·.anid) ∧
      (acc.Nodup → acc2.Nodup) := by
  simp only [validateIface] at h
  cases ht : iface.itype with
  | none => rw [ht] at h; cases h
  | some t =>
    rw [ht] at h
    dsimp only at h
    by_cases h1 : ¬(t = "ether" ∨ t = "bond")
    · rw [if_pos h1] at h; cases h
    · rw [if_neg h1] at h
      by_cases h2 : t = "ether" ∧ iface.iid = none
      · rw [if_pos h2] at h; cases h
      · rw [if_neg h2] at h
        cases hb : (if t = "bond" then validateBondPart consts nodeId iface
            else Except.ok ()) with
        | error e => rw [hb] at h; cases h
        | ok u =>
          rw [hb] at h
          dsimp only at h
          cases hn : iface.assigned_networks with
          | none => rw [hn] at h; cases h
          | some nets =>
            rw [hn] at h
            dsimp only at h
            have := checkAssignedNets_ok nodeId (ifaceLabel iface) nets acc acc2 h
            simpa [hn] using this

/-- Helper: a successful run of the whole interface loop of validate
appends exactly the node's network ids and preserves freedom from
duplicates. -/
theorem validateIfaces_ok (consts : NetConsts) (nodeId : String)
    (l : List IfacePayload) (acc acc2 : List Nat)
    (h : validateIfaces consts nodeId l acc = Except.ok acc2) :
    acc2 = acc ++ (l.map fun i =>
      (i.assigned_networks.getD []).filterMap (·.anid)).flatten ∧
      (acc.Nodup → acc2.Nodup) := by
  induction l generalizing acc with
  | nil =>
    simp only [validateIfaces] at h
    cases h
    simp
  | cons iface rest ih =>
    simp only [validateIfaces] at h
    cases hstep : validateIface consts nodeId iface acc with
    | error e => rw [hstep] at h; cases h
    | ok acc1 =>
      rw [hstep] at h
      dsimp only at h
      obtain ⟨heq1, hnd1⟩ := validateIface_ok consts nodeId iface acc acc1 hstep
      obtain ⟨heq2, hnd2⟩ := ih acc1 h
      constructor
      · simp [heq2, heq1]
      · intro hacc
        exact hnd2 (hnd1 hacc)

/-- C5: every node payload accepted by NetAssignmentValidator.validate has
no network id on more than one interface (nor twice on one interface);
equivalently — by contraposition — any payload in which some network id
occurs twice is rejected (every rejection of this validator is
InvalidData). -/
theorem validate_no_duplicate_network (consts : NetConsts) (node r : NodePayload)
    (h : NetAssignmentValidator.validate consts node = Except.ok r) :
    (nodeNetIds node).Nodup := by
  simp only [NetAssignmentValidator.validate] at h
  cases hn : node.nid with
  | none => rw [hn] at h; cases h
  | some nid =>
    rw [hn] at h
    dsimp only at h
    cases hi : node.interfaces with
    | none => rw [hi] at h; cases h
    | some ifaces =>
      rw [hi] at h
      dsimp only at h
      cases hv : validateIfaces consts (toString nid) ifaces [] with
      | error e => rw [hv] at h; cases h
      | ok acc2 =>
        obtain ⟨heq, hnd⟩ := validateIfaces_ok consts (toString nid) ifaces [] acc2 hv
        have : acc2.Nodup := hnd (by simp)
        rw [heq] at this
        simpa [nodeNetIds, hi] using this

/-- C5 witness: a concrete two-interface payload with three distinct
networks is accepted and its network ids are duplicate-free. -/
theorem validate_no_duplicate_network_witness :
    (nodeNetIds c5node).Nodup :=
  validate_no_duplicate_network c5consts c5node c5node (by decide)

/-- C4 counterexample: a dedicated network on a node with two empty
interfaces: the first run assigns it to the first interface, the second run
skips that interface (dedicated networks avoid non-empty interfaces, so the
already-assigned check is never reached) and assigns the network again to
the second interface — the mapping changes. -/
theorem assign_network_twice_ce :
    assign_network_to_interface c4n (assign_network_to_interface c4n c4s) ≠
      assign_network_to_interface c4n c4s ∧
    assign_network_to_interface c4n c4s = [[c4n], []] ∧
    assign_network_to_interface c4n (assign_network_to_interface c4n c4s) =
      [[c4n], [c4n]] := by decide

/-- Helper: when an interface's networks let the scan accept, appending the
new network makes a later scan find it (it triggers none of the breaks). -/
theorem scanAssignedNets_accept_append (n : NetG) (u : Bool)
    (hd : n.dedicated = false) (nets : List NetG)
    (h : scanAssignedNets n u nets = ScanOut.accept) :
    scanAssignedNets n u (nets ++ [n]) = ScanOut.found := by
  induction nets with
  | nil =>
    simp only [List.nil_append, scanAssignedNets]
    rw [if_neg (by simp [hd])]
    simp
  | cons net rest ih =>
    simp only [scanAssignedNets] at h ⊢
    by_cases h1 : net.dedicated = true
    · rw [if_pos h1] at h; cases h
    · rw [if_neg h1] at h ⊢
      by_cases h2 : net = n
      · rw [if_pos h2] at h; cases h
      · rw [if_neg h2] at h ⊢
        by_cases h3 : (u && net.untagged) = true
        · rw [if_pos h3] at h; cases h
        · rw [if_neg h3] at h ⊢
          exact ih h

/-- Helper: when a non-dedicated network was placed by the interface scan,
re-running the scan on the result finds it and leaves the state unchanged. -/
theorem assignScan_idem (n : NetG) (u : Bool) (hd : n.dedicated = false) :
    ∀ (s t : List (List NetG)), assignScan n u false s = some t →
      assignScan n u false t = some t := by
  intro s
  induction s with
  | nil => intro t h; cases h
  | cons nets rest ih =>
    intro t h
    simp only [assignScan, Bool.false_and, if_neg (by simp : ¬(false = true))] at h
    cases hs : scanAssignedNets n u nets with
    | skip =>
      rw [hs] at h
      dsimp only at h
      cases hr : assignScan n u false rest with
      | none => rw [hr] at h; cases h
      | some t2 =>
        rw [hr] at h
        cases h
        have := ih t2 hr
        simp only [assignScan, Bool.false_and, if_neg (by simp : ¬(false = true)), hs]
        rw [this]
        rfl
    | found =>
      rw [hs] at h
      cases h
      simp only [assignScan, Bool.false_and, if_neg (by simp : ¬(false = true)), hs]
    | accept =>
      rw [hs] at h
      cases h
      simp only [assignScan, Bool.false_and, if_neg (by simp : ¬(false = true)),
        scanAssignedNets_accept_append n u hd nets hs]

/-- C4 amended: running the default assignment twice yields the same
interface-to-network mapping as running it once, provided the network is
not flagged dedicated_nic and the first run placed it through the
interface scan (not through the first-interface fallback); a dedicated
network, or a network placed by the fallback, can be assigned a second
time by the second run. -/
theorem assign_network_to_interface_idem (n : NetG) (s t : List (List NetG))
    (hd : n.dedicated = false)
    (h : assignScan n n.untagged n.dedicated s = some t) :
    assign_network_to_interface n (assign_network_to_interface n s) =
      assign_network_to_interface n s := by
  rw [hd] at h
  have h1 : assign_network_to_interface n s = t := by
    simp only [assign_network_to_interface, hd, h]
  have h2 := assignScan_idem n n.untagged hd s t h
  rw [h1]
  simp only [assign_network_to_interface, hd, h2]

/-- C4 amended witness: a non-dedicated network placed by the scan on a
two-interface node is not moved or duplicated by a second run. -/
theorem assign_network_to_interface_idem_witness :
    assign_network_to_interface c4wn (assign_network_to_interface c4wn [[], []]) =
      assign_network_to_interface c4wn [[], []] :=
  assign_network_to_interface_idem c4wn [[], []] [[c4wn], []] (by decide) (by decide)

/-- C8: for an interface present in the DB on which DPDK resolves as
enabled (and the availability, PCI-id and private-network checks pass),
the MTU check passes exactly when the resolved MTU is at most 1500, and an
unset MTU never triggers the failure. -/
theorem dpdk_mtu_check (env : NodeEnv) (iface : IfacePayload) (dbIfaces : List DbIface)
    (dbi : DbIface) (is_slave : Bool)
    (h1 : resolveDbIface iface dbIfaces = some dbi)
    (h2 : ((mergedProps dbi iface).dpdk.getD ⟨none⟩).enabled.getD false = true)
    (h3 : env.dpdk_avail dbi.dbid = true)
    (h4 : (mergedProps dbi iface).pci_id = dbi.props.pci_id)
    (h5 : is_slave = true ∨ privateOnly iface = true) :
    (∀ m, (mergedProps dbi iface).mtu = some m →
      _verify_iface_dpdk_properties env iface dbIfaces is_slave =
        (if m ≤ 1500 then Except.ok true
         else Except.error (.invalidData ("For interface '" ++ iface.name.getD "" ++
           "' with enabled DPDK MTU size must be less than 1500 bytes")))) ∧
    ((mergedProps dbi iface).mtu = none →
      _verify_iface_dpdk_properties env iface dbIfaces is_slave = Except.ok true) := by
  have hbody : _verify_iface_dpdk_properties env iface dbIfaces is_slave =
      dpdkCommonChecks iface (some dbi) (mergedProps dbi iface) (env.dpdk_avail dbi.dbid)
        (((mergedProps dbi iface).dpdk.getD ⟨none⟩).enabled.getD false) is_slave := by
    simp only [_verify_iface_dpdk_properties, h1]
    rfl
  have hno1 : ¬(env.dpdk_avail dbi.dbid = false ∧
      ((mergedProps dbi iface).dpdk.getD ⟨none⟩).enabled.getD false = true) := by
    rintro ⟨ha, _⟩
    rw [h3] at ha
    cases ha
  have hpci : (if (mergedProps dbi iface).pci_id ≠ dbi.props.pci_id
      then some ("PCI-ID of '" ++ iface.name.getD "" ++ "' can't be changed manually")
      else none) = none := by
    rw [if_neg (by simp [h4])]
  have hno3 : ¬(((mergedProps dbi iface).dpdk.getD ⟨none⟩).enabled.getD false = true ∧
      is_slave = false ∧ privateOnly iface = false) := by
    rintro ⟨_, hsl, hpr⟩
    cases h5 with
    | inl h => rw [h] at hsl; cases hsl
    | inr h => rw [h] at hpr; cases hpr
  constructor
  · intro m hm
    rw [hbody]
    simp only [dpdkCommonChecks]
    rw [if_neg hno1, hpci]
    dsimp only
    rw [if_neg hno3, hm]
    dsimp only
    by_cases hle : m ≤ 1500
    · rw [if_neg (fun hc => absurd hc.2 (by simp [Nat.not_lt.mpr hle])), if_pos hle, h2]
    · rw [if_pos ⟨h2, decide_eq_true (Nat.lt_of_not_le hle)⟩, if_neg hle]
  · intro hm
    rw [hbody]
    simp only [dpdkCommonChecks]
    rw [if_neg hno1, hpci]
    dsimp only
    rw [if_neg hno3, hm]
    dsimp only
    rw [if_neg (by simp), h2]

/-- C8 witness: on the concrete DPDK-enabled interface, MTU 1500 passes,
MTU 1501 fails, and an unset MTU passes. -/
theorem dpdk_mtu_check_witness :
    _verify_iface_dpdk_properties c6env (c8iface (some 1500)) c6env.all_interfaces false =
      Except.ok true ∧
    _verify_iface_dpdk_properties c6env (c8iface (some 1501)) c6env.all_interfaces false =
      Except.error (.invalidData ("For interface '" ++ "eth1" ++
        "' with enabled DPDK MTU size must be less than 1500 bytes")) ∧
    _verify_iface_dpdk_properties c6env (c8iface none) c6env.all_interfaces false =
      Except.ok true := by
  refine ⟨?_, ?_, ?_⟩
  · have h := ((dpdk_mtu_check c6env (c8iface (some 1500)) c6env.all_interfaces c6eth1 false
      (by decide) (by decide) (by decide) (by decide) (Or.inr (by decide))).1) 1500 (by decide)
    rw [h]
    decide
  · have h := ((dpdk_mtu_check c6env (c8iface (some 1501)) c6env.all_interfaces c6eth1 false
      (by decide) (by decide) (by decide) (by decide) (Or.inr (by decide))).1) 1501 (by decide)
    rw [h]
    decide
  · exact ((dpdk_mtu_check c6env (c8iface none) c6env.all_interfaces c6eth1 false
      (by decide) (by decide) (by decide) (by decide) (Or.inr (by decide))).2) (by decide)

/-- Helper: the first loop of verify_data_correctness over an appended
interface list runs the first part and, unless it raised, continues on the
second with the accumulated bonded ids. -/
theorem verifyLoop1_append (env : NodeEnv) (all : List IfacePayload) (nodeId : String)
    (l1 l2 : List IfacePayload) (bonded : List Nat) :
    verifyLoop1 env all nodeId (l1 ++ l2) bonded =
      match verifyLoop1 env all nodeId l1 bonded with
      | .ok b => verifyLoop1 env all nodeId l2 b
      | .error e => .error e := by
  induction l1 generalizing bonded with
  | nil => simp [verifyLoop1]
  | cons iface rest ih =>
    simp only [List.cons_append, verifyLoop1]
    cases hs : verifyIface1 env all nodeId iface bonded with
    | ok b => dsimp only; exact ih b
    | error e => dsimp only

/-- C6: with the node present, unlocked, clustered and owning a PXE
interface, and the preceding interfaces passing the first loop: assigning
the admin (fuelweb_admin) network to a physical ether interface that is
not the PXE interface makes verify_data_correctness fail with InvalidData
naming the node and interface; assigning it to a bond whose slave check
passes makes it fail with InvalidData when the bond's mode is in the
provider's prohibited set, fail with InvalidData when the bond's slaves do
not include the PXE interface, and pass this interface's checks when the
mode is allowed and the PXE interface is among the slaves. -/
theorem verify_admin_placement (env : NodeEnv) (node : NodePayload) (nid : Nat)
    (pre rest : List IfacePayload) (iface : IfacePayload) (bonded bonded2 : List Nat)
    (dbi : DbIface) (pxeP : Bool) (p : String)
    (henv1 : env.node_in_db = true) (henv2 : env.locked = false)
    (hpxe : env.pxe_iface_name = some p) (hin : env.in_cluster = true)
    (hnid : node.nid = some nid)
    (hnode : node.interfaces = some (pre ++ iface :: rest))
    (hloop : verifyLoop1 env (pre ++ iface :: rest) (toString nid) pre [] =
      Except.ok bonded)
    (hadm : some NETWORKS_fuelweb_admin ∈ ifaceNetNames iface) :
    (iface.itype = some "ether" →
      _get_iface_by_id iface.iid env.nic_interfaces = some dbi →
      dbi.pxe = false →
      NetAssignmentValidator.verify_data_correctness env node =
        Except.error (.invalidData ("Node '" ++ toString nid ++
          "': admin network can not be assigned to non-pxe interface " ++
          iface.name.getD ""))) ∧
    (iface.itype = some "bond" →
      verifySlaves env (pre ++ iface :: rest) (toString nid) (iface.name.getD "")
          (iface.slaves.getD []) bonded false = Except.ok (bonded2, pxeP) →
      ((match get_bond_mode iface with
          | some m => decide (m ∈ env.prohibited_admin_bond_modes)
          | none => false) = true →
        NetAssignmentValidator.verify_data_correctness env node =
          Except.error (.invalidData ("Node '" ++ toString nid ++ "': interface '" ++
            iface.name.getD "" ++ "' belongs to admin network and has lacp mode '" ++
            (get_bond_mode iface).getD "" ++ "'"))) ∧
      ((match get_bond_mode iface with
          | some m => decide (m ∈ env.prohibited_admin_bond_modes)
          | none => false) = false → pxeP = false →
        NetAssignmentValidator.verify_data_correctness env node =
          Except.error (.invalidData ("Node '" ++ toString nid ++ "': interface '" ++
            iface.name.getD "" ++
            "' belongs to admin network and doesn't contain node's pxe interface '" ++
            env.pxe_iface_name.getD "" ++ "'"))) ∧
      ((match get_bond_mode iface with
          | some m => decide (m ∈ env.prohibited_admin_bond_modes)
          | none => false) = false → pxeP = true →
        verifyIface1 env (pre ++ iface :: rest) (toString nid) iface bonded =
          Except.ok bonded2)) := by
  have hnets : ¬(ifaceNetNames iface ≠ [] ∧ env.in_cluster = false) := by
    rintro ⟨-, hc⟩
    rw [hin] at hc
    cases hc
  have key : ∀ e, verifyIface1 env (pre ++ iface :: rest) (toString nid) iface bonded =
      Except.error e →
      NetAssignmentValidator.verify_data_correctness env node = Except.error e := by
    intro e he
    simp only [NetAssignmentValidator.verify_data_correctness, henv1, henv2, hnode, hnid]
    rw [if_neg (by simp), if_neg (by simp)]
    dsimp only [Option.getD]
    rw [if_neg (by rw [hpxe]; simp)]
    rw [verifyLoop1_append, hloop]
    simp only [verifyLoop1, he]
  constructor
  · intro hty hdb hp0
    apply key
    simp only [verifyIface1, if_neg hnets, if_pos hty, hdb]
    rw [if_pos ⟨hp0, hadm⟩]
  · intro hty hslaves
    have hne : ¬(iface.itype = some "ether") := by
      rw [hty]
      simp
    refine ⟨?_, ?_, ?_⟩
    · intro hmode
      apply key
      simp only [verifyIface1, if_neg hnets, if_neg hne, if_pos hty, hslaves]
      rw [if_pos hadm, if_pos hmode]
    · intro hmode hp0
      apply key
      simp only [verifyIface1, if_neg hnets, if_neg hne, if_pos hty, hslaves]
      rw [if_pos hadm, if_neg (by rw [hmode]; simp), if_pos hp0]
    · intro hmode hp1
      simp only [verifyIface1, if_neg hnets, if_neg hne, if_pos hty, hslaves]
      rw [if_pos hadm, if_neg (by rw [hmode]; simp), if_neg (by rw [hp1]; simp)]

/-- C6 witness: the spec's scenario — admin reassigned to the non-PXE
ether interface eth1 — instantiated on the concrete environment. -/
theorem verify_admin_placement_witness :
    NetAssignmentValidator.verify_data_correctness c6env c6node =
      Except.error (.invalidData ("Node '" ++ toString 1 ++
        "': admin network can not be assigned to non-pxe interface " ++ "eth1")) := by
  have h := (verify_admin_placement c6env c6node 1 [] []
      { itype := some "ether", iid := some 2, name := some "eth1", slaves := none,
        mode := none, bond_properties := none,
        assigned_networks := some [⟨some 1, some NETWORKS_fuelweb_admin⟩],
        interface_properties := none }
      [] [] c6eth1 false "eth0"
      (by decide) (by decide) (by decide) (by decide) (by decide) (by decide)
      (by decide) (by decide)).1 (by decide) (by decide) (by decide)
  exact h
